import Mathlib

/-!
Shallow embedding of the Bizim Transfer MCP server
(`src/utils.py`, `src/server.py`, `src/src/client.py`).

Modelling conventions:
* Python `str` values are modelled as `List Char` (`Str` below).
* Python `Optional[...]` arguments and absent dictionary keys are `Option`.
* The tool-layer operations take the API client as an explicit oracle
  `payload → Except Str response`; each operation returns the text result
  together with the list of API calls it issued, so "zero HTTP calls" is
  the statement that this list is empty.  Every operation is a total
  function, so no exception can escape to the caller.
* `datetime.strptime` is embedded by compiling the CPython `_strptime`
  regular expressions for the two format strings used by the code
  (`"%Y-%m-%d"` and `"%H:%M"`), followed by the `datetime` constructor
  range checks.
-/

abbrev Str := List Char

/-- Shorthand turning a Lean string literal into the `List Char` model of a
Python string. -/
def txt (s : String) : Str := s.toList

/-- A single quote character, used inside one of the server error messages. -/
def quoteChar : Str := ['\'']

/-- Python `s.lower()`, restricted to ASCII (the repository only lower-cases
two-letter country codes and similar ASCII data). -/
def pyLower (s : Str) : Str := s.map Char.toLower

/-- Python `s.upper()`, restricted to ASCII (the repository only upper-cases
currency codes). -/
def pyUpper (s : Str) : Str := s.map Char.toUpper

/-- Python `s.startswith(p)`. -/
def pyStartsWith (s p : Str) : Bool := decide (s.take p.length = p)

/-- Splitting a string at every occurrence of a separator character; the
anchored `_strptime` regular expressions for `"%Y-%m-%d"` / `"%H:%M"` match
exactly when the separator-split fields match the per-group patterns, since
no group pattern can contain the separator. -/
def splitOnSep (sep : Char) : Str → List Str
  | [] => [[]]
  | c :: cs =>
    match splitOnSep sep cs with
    | [] => if c = sep then [[], []] else [[c]]
    | t :: ts => if c = sep then [] :: t :: ts else (c :: t) :: ts

/-- ASCII digit test, written on code points (48 = `0`, 57 = `9`). -/
def isDigit (c : Char) : Bool := 48 ≤ c.toNat && c.toNat ≤ 57

/-- CPython `_strptime` group for `%Y`: `\d\d\d\d` (exactly four digits). -/
def yearTok : Str → Bool
  | [a, b, c, d] => isDigit a && isDigit b && isDigit c && isDigit d
  | _ => false

/-- CPython `_strptime` group for `%m`: `1[0-2]|0[1-9]|[1-9]`. -/
def monthTok : Str → Bool
  | [c] => 49 ≤ c.toNat && c.toNat ≤ 57
  | [c₁, c₂] =>
      (c₁.toNat = 49 && (48 ≤ c₂.toNat && c₂.toNat ≤ 50))
      || (c₁.toNat = 48 && (49 ≤ c₂.toNat && c₂.toNat ≤ 57))
  | _ => false

/-- CPython `_strptime` group for `%d`: `3[01]|[12]\d|0[1-9]|[1-9]| [1-9]`
(code point 32 is the space of the last alternative). -/
def dayTok : Str → Bool
  | [c] => 49 ≤ c.toNat && c.toNat ≤ 57
  | [c₁, c₂] =>
      (c₁.toNat = 51 && (c₂.toNat = 48 || c₂.toNat = 49))
      || ((c₁.toNat = 49 || c₁.toNat = 50) && isDigit c₂)
      || (c₁.toNat = 48 && (49 ≤ c₂.toNat && c₂.toNat ≤ 57))
      || (c₁.toNat = 32 && (49 ≤ c₂.toNat && c₂.toNat ≤ 57))
  | _ => false

/-- CPython `_strptime` group for `%H`: `2[0-3]|[0-1]\d|\d`. -/
def hourTok : Str → Bool
  | [c] => isDigit c
  | [c₁, c₂] =>
      (c₁.toNat = 50 && (48 ≤ c₂.toNat && c₂.toNat ≤ 51))
      || ((c₁.toNat = 48 || c₁.toNat = 49) && isDigit c₂)
  | _ => false

/-- CPython `_strptime` group for `%M`: `[0-5]\d|\d`. -/
def minuteTok : Str → Bool
  | [c] => isDigit c
  | [c₁, c₂] => (48 ≤ c₁.toNat && c₁.toNat ≤ 53) && isDigit c₂
  | _ => false

/-- Numeric value Python `int` assigns to a matched group (a leading space,
possible only in the `%d` group, is stripped). -/
def tokVal : Str → Nat
  | [c] => c.toNat - 48
  | [c₁, c₂] =>
      if c₁.toNat = 32 then c₂.toNat - 48
      else 10 * (c₁.toNat - 48) + (c₂.toNat - 48)
  | [a, b, c, d] =>
      1000 * (a.toNat - 48) + 100 * (b.toNat - 48) + 10 * (c.toNat - 48) + (d.toNat - 48)
  | _ => 0

/-- Leap-year rule used by `datetime`. -/
def isLeap (y : Nat) : Bool := y % 4 = 0 && (y % 100 ≠ 0 || y % 400 = 0)

/-- Number of days `datetime` accepts for a month. -/
def daysInMonth (y m : Nat) : Nat :=
  if m = 2 then (if isLeap y then 29 else 28)
  else if m = 4 ∨ m = 6 ∨ m = 9 ∨ m = 11 then 30
  else 31

/-- Embedding of `utils.validate_date` (utils.py lines 16-32): the empty string is valid,
otherwise `datetime.strptime(date_str, "%Y-%m-%d")` must succeed — the
`_strptime` regular expression must consume the whole string, and the
`datetime(year, month, day)` constructor must accept the parsed values
(year 1..9999, month 1..12, day within the month). -/
def validate_date (s : Str) : Bool :=
  if s = [] then true
  else
    match splitOnSep '-' s with
    | [y, m, d] =>
        yearTok y && monthTok m && dayTok d
        && (1 ≤ tokVal y) && (tokVal y ≤ 9999)
        && (1 ≤ tokVal m) && (tokVal m ≤ 12)
        && (1 ≤ tokVal d) && (tokVal d ≤ daysInMonth (tokVal y) (tokVal m))
    | _ => false

/-- Embedding of `utils.validate_time` (utils.py lines 34-50): the empty string is valid,
otherwise `datetime.strptime(time_str, "%H:%M")` must succeed; the matched
groups are already within the ranges the `datetime` constructor accepts. -/
def validate_time (s : Str) : Bool :=
  if s = [] then true
  else
    match splitOnSep ':' s with
    | [h, m] => hourTok h && minuteTok m
    | _ => false

/-- Embedding of `utils.CURRENCY_MAP` (utils.py lines 8-14). -/
def CURRENCY_MAP : List (Str × Nat) :=
  [(txt "TRY", 1), (txt "EUR", 2), (txt "USD", 3), (txt "GBP", 4), (txt "RUB", 6)]

/-- Python `dict.get` on an association list (no default). -/
def lookupStr (k : Str) : List (Str × Nat) → Option Nat
  | [] => none
  | (k', v) :: rest => if k = k' then some v else lookupStr k rest

/-- Embedding of `server.search_transfers` line 114:
`CURRENCY_MAP.get(currency.upper(), 2)`. -/
def currencyId (currency : Str) : Nat :=
  (lookupStr (pyUpper currency) CURRENCY_MAP).getD 2

/-- Decimal digits of a natural number, as Python `str` renders it. -/
def natRepr (n : Nat) : Str := Nat.toDigits 10 n

/-- Python `str` of an `int`. -/
def intRepr : Int → Str
  | Int.ofNat n => natRepr n
  | Int.negSucc n => '-' :: natRepr (n + 1)

/-- Rendering of a possibly-absent string dictionary value inside an
f-string: Python prints `None` for an absent value. -/
def pyShowOptStr : Option Str → Str
  | none => txt "None"
  | some s => s

/-- Rendering of a possibly-absent integer dictionary value inside an
f-string. -/
def pyShowOptInt : Option Int → Str
  | none => txt "None"
  | some i => intRepr i

/-- Python truthiness of an optional string (`None` and `""` are falsy). -/
def pyTruthyOptStr : Option Str → Bool
  | none => false
  | some s => !s.isEmpty

/-- The newline separator of `"\n".join(...)`. -/
def nl : Str := ['\n']

/-- Python `sep.join(parts)`. -/
def joinSep (sep : Str) : List Str → Str
  | [] => []
  | [x] => x
  | x :: y :: ys => x ++ sep ++ joinSep sep (y :: ys)

/-- One entry of the `extraurunler` array of a transfer option
(spec section 6: fields UrunTanimi and BirimFiyat). -/
structure ExtraItem where
  urunTanimi : Option Str
  birimFiyat : Option Str

/-- One priced option inside a way of the transfer-search response.
Display-only numeric fields are modelled as the string rendering of the
value; the two identifiers consumed by reservation creation are integers. -/
structure TransferOption where
  carname : Option Str
  extramessage : Option Str
  pickup : Option Str
  duration : Option Str
  price : Option Str
  kisihakki : Option Int
  bavulhakki : Option Int
  extraurunler : List ExtraItem
  routeid : Option Int
  subrouteid : Option Int

/-- One way (leg) of the transfer-search response.  Dictionary keys `from`
and `to` are modelled as `fromLoc` / `toLoc`. -/
structure TransferWayResp where
  type : Option Str
  fromLoc : Option Str
  toLoc : Option Str
  date : Option Str
  list : List TransferOption

/-- The transfer-search response (`POST /query`). -/
structure TransferResponse where
  status : Option Str
  description : Option Str
  currencysembol : Option Str
  pickup : Option Str
  dropoff : Option Str
  adult : Option Int
  child : Option Int
  infant : Option Int
  uuid : Option Str
  ways : List TransferWayResp

/-- Lines the `for extra in extras` loop appends (utils.py lines 101-102). -/
def extrasLines (csym : Str) : List ExtraItem → List Str
  | [] => []
  | e :: rest =>
      (txt "- " ++ pyShowOptStr e.urunTanimi ++ txt ": "
        ++ pyShowOptStr e.birimFiyat ++ txt " " ++ csym)
      :: extrasLines csym rest

/-- Lines appended for one transfer option (utils.py lines 90-107), at
1-based position `i` of the enumeration. -/
def optionBlock (csym : Str) (i : Nat) (o : TransferOption) : List Str :=
  [txt "### Option " ++ natRepr i ++ txt ": " ++ pyShowOptStr o.carname,
   txt "Type: " ++ o.extramessage.getD (txt "Standard"),
   txt "Pickup Time: " ++ pyShowOptStr o.pickup,
   txt "Duration: " ++ pyShowOptStr o.duration ++ txt " minutes",
   txt "Price: " ++ pyShowOptStr o.price ++ txt " " ++ csym,
   txt "Max Passengers: " ++ pyShowOptInt o.kisihakki ++ txt " with "
     ++ pyShowOptInt o.bavulhakki ++ txt " luggage items"]
  ++ (if o.extraurunler.isEmpty then []
      else txt "Available Extras:" :: extrasLines csym o.extraurunler)
  ++ [txt "Route ID: " ++ pyShowOptInt o.routeid,
      txt "Subroute ID: " ++ pyShowOptInt o.subrouteid ++ txt " (needed for booking)",
      []]

/-- The `for i, option in enumerate(options, 1)` loop (utils.py line 89). -/
def optionBlocks (csym : Str) (i : Nat) : List TransferOption → List Str
  | [] => []
  | o :: rest => optionBlock csym i o ++ optionBlocks csym (i + 1) rest

/-- Lines appended for one way (utils.py lines 79-107). -/
def wayBlock (csym : Str) (w : TransferWayResp) : List Str :=
  (txt "## "
     ++ (if pyStartsWith (w.type.getD []) (txt "yon1") then txt "Outbound" else txt "Return")
     ++ txt " Journey")
  :: (txt "From: " ++ pyShowOptStr w.fromLoc)
  :: (txt "To: " ++ pyShowOptStr w.toLoc)
  :: (txt "Date: " ++ pyShowOptStr w.date)
  :: []
  :: optionBlocks csym 1 w.list

/-- The `for way in ways` loop (utils.py line 79). -/
def waysBlocks (csym : Str) : List TransferWayResp → List Str
  | [] => []
  | w :: rest => wayBlock csym w ++ waysBlocks csym rest

/-- Embedding of `utils.format_transfer_results` (utils.py lines 52-109). -/
def format_transfer_results (r : TransferResponse) : Str :=
  if r.status ≠ some (txt "success") then
    txt "Error: " ++ r.description.getD (txt "Unknown error occurred")
  else
    joinSep nl
      ((txt "Transfer options from " ++ pyShowOptStr r.pickup ++ txt " to "
          ++ pyShowOptStr r.dropoff)
       :: (txt "Total passengers: " ++ pyShowOptInt r.adult ++ txt " adults, "
            ++ pyShowOptInt r.child ++ txt " children, "
            ++ pyShowOptInt r.infant ++ txt " infants")
       :: []
       :: (txt "Booking reference (UUID): " ++ pyShowOptStr r.uuid)
       :: []
       :: waysBlocks (r.currencysembol.getD []) r.ways)

/-- The reservation-creation response (`POST /reservation`). -/
structure ReservationResponse where
  status : Option Str
  description : Option Str
  rezid : Option Str

/-- Embedding of `utils.format_reservation_results` (utils.py lines 111-132). -/
def format_reservation_results (r : ReservationResponse) : Str :=
  if r.status ≠ some (txt "success") then
    txt "Error: " ++ r.description.getD (txt "Unknown error occurred")
  else
    joinSep nl
      [txt "✅ Reservation successfully created!",
       txt "Reservation Number: " ++ pyShowOptStr r.rezid,
       [],
       txt "Please keep this reservation number for your records.",
       txt "You should receive a confirmation email with your booking details."]

/-- One way of a listed reservation record. -/
structure ResWay where
  pickupadres : Option Str
  returnadres : Option Str
  flightdate : Option Str
  pickuptime : Option Str
  car : Option Str
  duration : Option Str
  flightnumber : Option Str
  terminal : Option Str

/-- One passenger of a listed reservation record. -/
structure ResPassenger where
  namesurname : Option Str
  country : Option Str

/-- One record of the reservation-list response. -/
structure ResRecord where
  reservationnumber : Option Int
  customername : Option Str
  customersurname : Option Str
  customeremail : Option Str
  customertel : Option Str
  adult : Option Int
  child : Option Int
  infant : Option Int
  amount : Option Str
  currency : Option Str
  status : Option Str
  paymenttype : Option Str
  createat : Option Str
  ways : List ResWay
  passangers : List ResPassenger

/-- The reservation-list response (`POST /list`). -/
structure ReservationListResponse where
  status : Option Str
  description : Option Str
  list : List ResRecord

/-- Lines of the `for j, way in enumerate(ways, 1)` loop
(utils.py lines 167-173). -/
def resWayLines (j : Nat) (w : ResWay) : List Str :=
  [txt "- " ++ (if j = 1 then txt "Outbound" else txt "Return") ++ txt ": "
     ++ pyShowOptStr w.pickupadres ++ txt " → " ++ pyShowOptStr w.returnadres,
   txt "  Date: " ++ pyShowOptStr w.flightdate ++ txt ", Pickup time: "
     ++ pyShowOptStr w.pickuptime,
   txt "  Vehicle: " ++ pyShowOptStr w.car ++ txt ", Duration: "
     ++ pyShowOptStr w.duration ++ txt " min"]
  ++ (if pyTruthyOptStr w.flightnumber then
        [txt "  Flight: " ++ pyShowOptStr w.flightnumber ++ txt ", Terminal: "
           ++ pyShowOptStr w.terminal]
      else [])

/-- The way loop itself, carrying the 1-based counter. -/
def resWaysLines (j : Nat) : List ResWay → List Str
  | [] => []
  | w :: rest => resWayLines j w ++ resWaysLines (j + 1) rest

/-- Lines of the passenger loop (utils.py lines 179-180). -/
def resPassengerLines : List ResPassenger → List Str
  | [] => []
  | p :: rest =>
      (txt "- " ++ pyShowOptStr p.namesurname ++ txt " ("
        ++ pyShowOptStr p.country ++ txt ")")
      :: resPassengerLines rest

/-- Lines appended for one reservation record (utils.py lines 154-180); the
leading `\n` of three of the appended parts is kept verbatim. -/
def resRecordBlock (i : Nat) (r : ResRecord) : List Str :=
  [txt "\n## Reservation " ++ natRepr i,
   txt "Reservation Number: " ++ pyShowOptInt r.reservationnumber,
   txt "Customer: " ++ pyShowOptStr r.customername ++ txt " "
     ++ pyShowOptStr r.customersurname,
   txt "Contact: " ++ pyShowOptStr r.customeremail ++ txt ", "
     ++ pyShowOptStr r.customertel,
   txt "Passengers: " ++ pyShowOptInt r.adult ++ txt " adults, "
     ++ pyShowOptInt r.child ++ txt " children, "
     ++ pyShowOptInt r.infant ++ txt " infants",
   txt "Amount: " ++ pyShowOptStr r.amount ++ txt " " ++ pyShowOptStr r.currency,
   txt "Status: " ++ pyShowOptStr r.status,
   txt "Payment: " ++ pyShowOptStr r.paymenttype,
   txt "Created: " ++ pyShowOptStr r.createat,
   txt "\nTransfers:"]
  ++ resWaysLines 1 r.ways
  ++ (if r.passangers.isEmpty then []
      else txt "\nPassengers:" :: resPassengerLines r.passangers)

/-- The `for i, res in enumerate(reservations, 1)` loop (utils.py line 153). -/
def resRecordBlocks (i : Nat) : List ResRecord → List Str
  | [] => []
  | r :: rest => resRecordBlock i r ++ resRecordBlocks (i + 1) rest

/-- Embedding of `utils.format_reservation_list` (utils.py lines 134-182). -/
def format_reservation_list (r : ReservationListResponse) : Str :=
  if r.status ≠ some (txt "success") then
    txt "Error: " ++ r.description.getD (txt "Unknown error occurred")
  else if r.list.isEmpty then
    txt "No reservations found matching your criteria."
  else
    joinSep nl
      ((txt "Found " ++ natRepr r.list.length ++ txt " reservation(s):")
       :: resRecordBlocks 1 r.list)

/-- One candidate of the place-search response (`GET /places`); note the
response is a bare JSON array, so there is no `status` field at all. -/
structure PlaceCandidate where
  place_id : Option Str
  description : Option Str

/-- The `for i, place in enumerate(places, 1)` loop (utils.py line 199). -/
def placeLines (i : Nat) : List PlaceCandidate → List Str
  | [] => []
  | p :: rest =>
      (natRepr i ++ txt ". " ++ pyShowOptStr p.description ++ txt " (ID: "
        ++ pyShowOptStr p.place_id ++ txt ")")
      :: placeLines (i + 1) rest

/-- Embedding of `utils.format_places_results` (utils.py lines 184-202). -/
def format_places_results (places : List PlaceCandidate) : Str :=
  if places.isEmpty then txt "No places found matching your query."
  else joinSep nl (txt "Found locations:" :: placeLines 1 places)

/-- The `geometry.location` sub-object of place details; `none` models an
absent or empty (falsy) location dictionary. -/
structure PlaceLocation where
  lat : Option Str
  lng : Option Str

/-- The `geometry` sub-object of place details. -/
structure PlaceGeometry where
  location : Option PlaceLocation

/-- The place-details response (`GET /places/detail`).  The upstream
dictionary may carry `status`/`description` keys; they are modelled here so
that it is visible that `format_place_details` never reads them. -/
structure PlaceDetails where
  status : Option Str
  description : Option Str
  name : Option Str
  formatted_address : Option Str
  geometry : Option PlaceGeometry
  types : List Str

/-- Chained geometry and location lookups of utils.py line 220, each
defaulting to an empty dictionary. -/
def placeLoc (d : PlaceDetails) : Option PlaceLocation :=
  match d.geometry with
  | none => none
  | some g => g.location

/-- Embedding of `utils.format_place_details` (utils.py lines 204-230); it
performs no
`status` check. -/
def format_place_details (d : PlaceDetails) : Str :=
  joinSep nl
    ((txt "Location Details:")
     :: (txt "Name: " ++ d.name.getD (txt "N/A"))
     :: (txt "Address: " ++ d.formatted_address.getD (txt "N/A"))
     :: ((match placeLoc d with
          | some l =>
              [txt "Latitude: " ++ l.lat.getD (txt "N/A"),
               txt "Longitude: " ++ l.lng.getD (txt "N/A")]
          | none => [])
         ++ (if d.types = [] then [] else [txt "Type: " ++ joinSep (txt ", ") d.types])))

/-- Python truthiness of an optional list argument (`None` and `[]` falsy). -/
def pyTruthyOptList {α : Type} : Option (List α) → Bool
  | none => false
  | some l => !l.isEmpty

/-- Python falsiness of an `Optional[str]` argument. -/
def pyFalsyOptStr : Option Str → Bool
  | none => true
  | some s => s.isEmpty

/-- Python falsiness of an `Optional[int]` argument (`None` and `0` falsy). -/
def pyFalsyOptInt : Option Int → Bool
  | none => true
  | some n => n = 0

/-- Python `x or ""` on an `Optional[str]`. -/
def pyOrEmpty : Option Str → Str
  | none => []
  | some s => s

/-- Arguments of the `search_transfers` tool (server.py lines 49-66).  The
coordinates are floating-point values that the server only passes through,
so their type is an arbitrary parameter `F`. -/
structure SearchArgs (F : Type) where
  pickup_address : Str
  pickup_lat : F
  pickup_lng : F
  dropoff_address : Str
  dropoff_lat : F
  dropoff_lng : F
  pickup_date : Str
  pickup_time : Str
  adults : Int
  children : Int
  infants : Int
  round_trip : Bool
  return_date : Option Str
  return_time : Option Str
  currency : Str
  language : Str

/-- The keyword arguments of the `client.client.search_transfers` call
(server.py lines 127-144, client.py lines 33-97). -/
structure SearchPayload (F : Type) where
  pickup : Str
  pickuplat : F
  pickuplng : F
  dropoff : Str
  dropofflat : F
  dropofflng : F
  adult : Int
  child : Int
  infant : Int
  pickupdate : Str
  pickuptime : Str
  dropoffdate : Str
  dropofftime : Str
  requesttype : Nat
  currencyid : Nat
  language : Str
deriving DecidableEq

/-- The input-validation chain of `search_transfers` (server.py lines
92-111), in source order; `some e` is the early-returned error string.  The
three round-trip checks are nested under `if round_trip:` in the source,
which the conjunctions reproduce. -/
def searchValidate {F : Type} (a : SearchArgs F) : Option Str :=
  if a.pickup_address = [] ∨ a.dropoff_address = [] then
    some (txt "Error: Pickup and dropoff addresses are required")
  else if a.adults < 1 then
    some (txt "Error: At least one adult passenger is required")
  else if validate_date a.pickup_date = false then
    some (txt "Error: Invalid pickup date format. Please use YYYY-MM-DD format")
  else if validate_time a.pickup_time = false then
    some (txt "Error: Invalid pickup time format. Please use HH:MM format (24h)")
  else if a.round_trip = true ∧
      (pyFalsyOptStr a.return_date = true ∨ pyFalsyOptStr a.return_time = true) then
    some (txt "Error: Return date and time are required for round trips")
  else if a.round_trip = true ∧ validate_date (a.return_date.getD []) = false then
    some (txt "Error: Invalid return date format. Please use YYYY-MM-DD format")
  else if a.round_trip = true ∧ validate_time (a.return_time.getD []) = false then
    some (txt "Error: Invalid return time format. Please use HH:MM format (24h)")
  else none

/-- The payload `search_transfers` hands to the API client (server.py lines
127-144): return date/time are forwarded only for round trips, the request
type is 2 for round trips and 1 otherwise, and the currency id comes from
`CURRENCY_MAP`. -/
def searchPayloadOf {F : Type} (a : SearchArgs F) : SearchPayload F :=
  SearchPayload.mk a.pickup_address a.pickup_lat a.pickup_lng
    a.dropoff_address a.dropoff_lat a.dropoff_lng
    a.adults a.children a.infants
    a.pickup_date a.pickup_time
    (if a.round_trip then a.return_date.getD [] else [])
    (if a.round_trip then a.return_time.getD [] else [])
    (if a.round_trip then 2 else 1)
    (currencyId a.currency)
    a.language

/-- Embedding of `server.search_transfers` (server.py lines 48-150); `api` is the
client; the second component lists the API calls issued.  The
`except Exception` handler of the source is the `Except.error` branch. -/
def search_transfers {F : Type} (a : SearchArgs F)
    (api : SearchPayload F → Except Str TransferResponse) :
    Str × List (SearchPayload F) :=
  match searchValidate a with
  | some e => (e, [])
  | none =>
      match api (searchPayloadOf a) with
      | Except.ok r => (format_transfer_results r, [searchPayloadOf a])
      | Except.error e => (txt "Error searching for transfers: " ++ e, [searchPayloadOf a])

/-- Arguments of the `make_reservation` tool (server.py lines 153-170). -/
structure ResArgs where
  uuid : Str
  first_name : Str
  last_name : Str
  email : Str
  phone : Str
  country_code : Str
  outbound_subroute_id : Int
  flight_number : Option Str
  terminal : Option Str
  notes : Option Str
  return_subroute_id : Option Int
  return_flight_number : Option Str
  return_terminal : Option Str
  return_notes : Option Str
  passenger_names : Option (List Str)
  passenger_countries : Option (List Str)

/-- One entry of the `transferway` list (server.py lines 216-232). -/
structure TransferWayReq where
  subrouteid : Int
  flightnumber : Str
  terminal : Str
  notes : Str
deriving DecidableEq

/-- One entry of the `passangers` list (server.py lines 240-250). -/
structure PassengerRec where
  name : Str
  country : Str
deriving DecidableEq

/-- The keyword arguments of the `client.client.make_reservation` call
(server.py lines 260-269, client.py lines 99-139). -/
structure ReservationPayload where
  uuid : Str
  customername : Str
  customersurname : Str
  customeremail : Str
  customertelephone : Str
  customercoutry : Str
  transferway : List TransferWayReq
  passangers : List PassengerRec
deriving DecidableEq

/-- The input-validation chain of `make_reservation` in source order:
the required-field checks of server.py lines 197-213 (where
`not outbound_subroute_id` is true exactly for the integer 0) and the
passenger-list length check of lines 236-238, which runs only when both
optional lists are truthy (supplied and non-empty). -/
def reservationValidate (a : ResArgs) : Option Str :=
  if a.uuid = [] then
    some (txt "Error: UUID is required from the search results")
  else if a.first_name = [] ∨ a.last_name = [] then
    some (txt "Error: Customer name is required")
  else if a.email = [] then
    some (txt "Error: Email address is required")
  else if a.phone = [] then
    some (txt "Error: Phone number is required")
  else if a.country_code = [] then
    some (txt "Error: Country code is required")
  else if a.outbound_subroute_id = 0 then
    some (txt "Error: Outbound subroute ID is required")
  else if pyTruthyOptList a.passenger_names = true
      ∧ pyTruthyOptList a.passenger_countries = true
      ∧ (a.passenger_names.getD []).length ≠ (a.passenger_countries.getD []).length then
    some (txt "Error: Number of passenger names and countries must match")
  else none

/-- The `transfer_ways` list (server.py lines 216-232); the return way is
appended only when `return_subroute_id` is truthy (present and non-zero). -/
def transferWaysOf (a : ResArgs) : List TransferWayReq :=
  TransferWayReq.mk a.outbound_subroute_id (pyOrEmpty a.flight_number)
      (pyOrEmpty a.terminal) (pyOrEmpty a.notes)
  :: (match a.return_subroute_id with
      | some n =>
          if n = 0 then []
          else [TransferWayReq.mk n (pyOrEmpty a.return_flight_number)
                  (pyOrEmpty a.return_terminal) (pyOrEmpty a.return_notes)]
      | none => [])

/-- The single default passenger synthesized from the customer fields
(server.py lines 245-250). -/
def defaultPassenger (a : ResArgs) : PassengerRec :=
  PassengerRec.mk (a.first_name ++ txt " " ++ a.last_name) (pyLower a.country_code)

/-- The `passengers` list (server.py lines 234-250): zipped explicit lists
with lower-cased countries when both lists are truthy, else the default
passenger.  Validation has already rejected unequal lengths when this is
reached with both lists truthy. -/
def passengersOf (a : ResArgs) : List PassengerRec :=
  if pyTruthyOptList a.passenger_names = true
      ∧ pyTruthyOptList a.passenger_countries = true then
    (List.zip (a.passenger_names.getD []) (a.passenger_countries.getD [])).map
      (fun p => PassengerRec.mk p.1 (pyLower p.2))
  else [defaultPassenger a]

/-- The payload `make_reservation` hands to the API client (server.py lines
260-269); the customer country is lower-cased. -/
def reservationPayloadOf (a : ResArgs) : ReservationPayload :=
  ReservationPayload.mk a.uuid a.first_name a.last_name a.email a.phone
    (pyLower a.country_code) (transferWaysOf a) (passengersOf a)

/-- Embedding of `server.make_reservation` (server.py lines 152-275). -/
def make_reservation (a : ResArgs)
    (api : ReservationPayload → Except Str ReservationResponse) :
    Str × List ReservationPayload :=
  match reservationValidate a with
  | some e => (e, [])
  | none =>
      match api (reservationPayloadOf a) with
      | Except.ok r => (format_reservation_results r, [reservationPayloadOf a])
      | Except.error e => (txt "Error making reservation: " ++ e, [reservationPayloadOf a])

/-- Arguments of the `list_reservations` tool (server.py lines 278-283). -/
structure ListArgs where
  query_type : Str
  start_date : Option Str
  end_date : Option Str
  reservation_number : Option Int

/-- The arguments of the `client.client.list_reservations` call (server.py
lines 318-328, client.py lines 141-174): the date-based branch passes
`start`/`end` and leaves the reservation number at its `None` default, the
reservation-number branch does the opposite. -/
structure ListPayload where
  querytype : Str
  start : Option Str
  end_ : Option Str
  reservationnumber : Option Int
deriving DecidableEq

/-- The input-validation chain of `list_reservations` (server.py lines
297-308), in source order. -/
def listValidate (a : ListArgs) : Option Str :=
  if ¬ (a.query_type = txt "createdate" ∨ a.query_type = txt "flightdate"
      ∨ a.query_type = txt "reservationnumber") then
    some (txt "Error: query_type must be " ++ quoteChar ++ txt "createdate"
      ++ quoteChar ++ txt ", " ++ quoteChar ++ txt "flightdate" ++ quoteChar
      ++ txt ", or " ++ quoteChar ++ txt "reservationnumber" ++ quoteChar)
  else if (a.query_type = txt "createdate" ∨ a.query_type = txt "flightdate")
      ∧ (pyFalsyOptStr a.start_date = true ∨ pyFalsyOptStr a.end_date = true) then
    some (txt "Error: start_date and end_date are required for "
      ++ a.query_type ++ txt " queries")
  else if (a.query_type = txt "createdate" ∨ a.query_type = txt "flightdate")
      ∧ (validate_date (a.start_date.getD []) = false
         ∨ validate_date (a.end_date.getD []) = false) then
    some (txt "Error: Invalid date format. Please use YYYY-MM-DD format")
  else if a.query_type = txt "reservationnumber"
      ∧ pyFalsyOptInt a.reservation_number = true then
    some (txt "Error: reservation_number is required for direct lookup")
  else none

/-- The payload `list_reservations` hands to the API client (server.py
lines 318-328). -/
def listPayloadOf (a : ListArgs) : ListPayload :=
  if a.query_type = txt "createdate" ∨ a.query_type = txt "flightdate" then
    ListPayload.mk a.query_type a.start_date a.end_date none
  else
    ListPayload.mk a.query_type none none a.reservation_number

/-- Embedding of `server.list_reservations` (server.py lines 277-334). -/
def list_reservations (a : ListArgs)
    (api : ListPayload → Except Str ReservationListResponse) :
    Str × List ListPayload :=
  match listValidate a with
  | some e => (e, [])
  | none =>
      match api (listPayloadOf a) with
      | Except.ok r => (format_reservation_list r, [listPayloadOf a])
      | Except.error e => (txt "Error listing reservations: " ++ e, [listPayloadOf a])

/-- Embedding of `server.search_places` (server.py lines 336-370); the call to
the API
client carries the query and the language.  The defensive check on the
injected framework context (lines 354-355) is outside this embedding, in
which the client is always available as the `api` oracle. -/
def search_places (query language : Str)
    (api : Str × Str → Except Str (List PlaceCandidate)) :
    Str × List (Str × Str) :=
  if query = [] then (txt "Error: Search query is required", [])
  else
    match api (query, language) with
    | Except.ok places => (format_places_results places, [(query, language)])
    | Except.error e => (txt "Error searching places: " ++ e, [(query, language)])

/-- Embedding of `server.get_place_details` (server.py lines 372-405). -/
def get_place_details (place_id language : Str)
    (api : Str × Str → Except Str PlaceDetails) :
    Str × List (Str × Str) :=
  if place_id = [] then (txt "Error: Place ID is required", [])
  else
    match api (place_id, language) with
    | Except.ok details => (format_place_details details, [(place_id, language)])
    | Except.error e => (txt "Error getting place details: " ++ e, [(place_id, language)])

/-- A one-line error message: starts with `Error` and contains no newline. -/
def isOneLineError (s : Str) : Bool :=
  pyStartsWith s (txt "Error") && !(s.contains '\n')

/-- The failure condition of the `search_transfers` validation chain, as
enumerated by the claim: an argument assignment fails validation iff one of
these holds. -/
def searchValidationFails {F : Type} (a : SearchArgs F) : Prop :=
  a.pickup_address = [] ∨ a.dropoff_address = [] ∨ a.adults < 1
  ∨ validate_date a.pickup_date = false ∨ validate_time a.pickup_time = false
  ∨ (a.round_trip = true ∧
      (pyFalsyOptStr a.return_date = true ∨ pyFalsyOptStr a.return_time = true
       ∨ validate_date (a.return_date.getD []) = false
       ∨ validate_time (a.return_time.getD []) = false))

/-- The failure condition of the `make_reservation` validation chain. -/
def reservationValidationFails (a : ResArgs) : Prop :=
  a.uuid = [] ∨ a.first_name = [] ∨ a.last_name = [] ∨ a.email = []
  ∨ a.phone = [] ∨ a.country_code = [] ∨ a.outbound_subroute_id = 0
  ∨ (pyTruthyOptList a.passenger_names = true
     ∧ pyTruthyOptList a.passenger_countries = true
     ∧ (a.passenger_names.getD []).length ≠ (a.passenger_countries.getD []).length)

/-- The failure condition of the `list_reservations` validation chain. -/
def listValidationFails (a : ListArgs) : Prop :=
  ¬ (a.query_type = txt "createdate" ∨ a.query_type = txt "flightdate"
     ∨ a.query_type = txt "reservationnumber")
  ∨ ((a.query_type = txt "createdate" ∨ a.query_type = txt "flightdate")
     ∧ (pyFalsyOptStr a.start_date = true ∨ pyFalsyOptStr a.end_date = true
        ∨ validate_date (a.start_date.getD []) = false
        ∨ validate_date (a.end_date.getD []) = false))
  ∨ (a.query_type = txt "reservationnumber"
     ∧ pyFalsyOptInt a.reservation_number = true)

/-- The date shape asserted by the claim for `validate_date`: exactly
`YYYY-MM-DD` with a four-digit year, a two-digit month 01-12, and a
two-digit day valid for that month and year. -/
def claimedDateShape (s : Str) : Bool :=
  match splitOnSep '-' s with
  | [y, m, d] =>
      (y.length = 4) && y.all isDigit
      && (m.length = 2) && m.all isDigit && (1 ≤ tokVal m) && (tokVal m ≤ 12)
      && (d.length = 2) && d.all isDigit && (1 ≤ tokVal d)
      && (tokVal d ≤ daysInMonth (tokVal y) (tokVal m))
  | _ => false

/-- Day field of the amended date shape: one or two digits, or a space
followed by a digit. -/
def amendedDayShape (d : Str) : Bool :=
  ((d.length = 1 ∨ d.length = 2) && d.all isDigit)
  || (match d with
      | [c₁, c₂] => (c₁.toNat = 32) && isDigit c₂
      | _ => false)

/-- The date shape `validate_date` actually accepts, stated in the amended
amended claim: `y-m-d` with a four-digit year of value at least 1, a one- or
two-digit month of value 1-12, and a day that is one or two digits (or a
space followed by a digit) of value between 1 and the length of that month
in that year. -/
def amendedDateShape (s : Str) : Bool :=
  match splitOnSep '-' s with
  | [y, m, d] =>
      (y.length = 4) && y.all isDigit && (1 ≤ tokVal y)
      && ((m.length = 1 ∨ m.length = 2)) && m.all isDigit
      && (1 ≤ tokVal m) && (tokVal m ≤ 12)
      && amendedDayShape d && (1 ≤ tokVal d)
      && (tokVal d ≤ daysInMonth (tokVal y) (tokVal m))
  | _ => false

/-- The time shape `validate_time` actually accepts, stated in the amended
amended claim: `h:m` with a one- or two-digit hour of value at most 23 and
a one- or two-digit minute of value at most 59. -/
def amendedTimeShape (s : Str) : Bool :=
  match splitOnSep ':' s with
  | [h, m] =>
      ((h.length = 1 ∨ h.length = 2)) && h.all isDigit && (tokVal h ≤ 23)
      && ((m.length = 1 ∨ m.length = 2)) && m.all isDigit && (tokVal m ≤ 59)
  | _ => false

/-- Replacing the two return fields of a `search_transfers` argument
assignment, leaving every other argument unchanged. -/
def SearchArgs.setReturn {F : Type} (a : SearchArgs F) (rd rt : Option Str) :
    SearchArgs F :=
  SearchArgs.mk a.pickup_address a.pickup_lat a.pickup_lng a.dropoff_address
    a.dropoff_lat a.dropoff_lng a.pickup_date a.pickup_time a.adults
    a.children a.infants a.round_trip rd rt a.currency a.language

/-- Dropping both optional passenger lists of a `make_reservation` argument
assignment, leaving every other argument unchanged. -/
def ResArgs.clearPassengers (a : ResArgs) : ResArgs :=
  ResArgs.mk a.uuid a.first_name a.last_name a.email a.phone a.country_code
    a.outbound_subroute_id a.flight_number a.terminal a.notes
    a.return_subroute_id a.return_flight_number a.return_terminal
    a.return_notes none none

/-- The condition of the claim about partially supplied passenger lists:
exactly one list supplied, or either supplied as the empty list. -/
def partialPassengerLists (a : ResArgs) : Prop :=
  (a.passenger_names ≠ none ∧ a.passenger_countries = none)
  ∨ (a.passenger_names = none ∧ a.passenger_countries ≠ none)
  ∨ a.passenger_names = some [] ∨ a.passenger_countries = some []

/-- An offline API oracle for transfer search: every call fails. -/
def noApiT {F : Type} : SearchPayload F → Except Str TransferResponse :=
  fun _ => Except.error (txt "offline")

/-- An offline API oracle for reservation creation. -/
def noApiR : ReservationPayload → Except Str ReservationResponse :=
  fun _ => Except.error (txt "offline")

/-- An offline API oracle for reservation listing. -/
def noApiL : ListPayload → Except Str ReservationListResponse :=
  fun _ => Except.error (txt "offline")

/-- An offline API oracle for place search. -/
def noApiP : Str × Str → Except Str (List PlaceCandidate) :=
  fun _ => Except.error (txt "offline")

/-- An offline API oracle for place details. -/
def noApiD : Str × Str → Except Str PlaceDetails :=
  fun _ => Except.error (txt "offline")

/-- A transfer-search argument assignment with an empty pickup address. -/
def searchArgsBad : SearchArgs Int :=
  SearchArgs.mk [] 0 0 (txt "B St") 0 0 (txt "2024-01-01") (txt "10:00")
    1 0 0 false none none (txt "EUR") (txt "en")

/-- A valid one-way transfer-search argument assignment carrying an unknown
currency code and junk return fields. -/
def searchArgsOneWay : SearchArgs Int :=
  SearchArgs.mk (txt "A St") 1 2 (txt "B St") 3 4 (txt "2024-06-01")
    (txt "10:30") 2 0 0 false (some (txt "garbage")) (some (txt "nonsense"))
    (txt "chf") (txt "en")

/-- A valid round-trip transfer-search argument assignment. -/
def searchArgsRound : SearchArgs Int :=
  SearchArgs.mk (txt "A St") 1 2 (txt "B St") 3 4 (txt "2024-06-01")
    (txt "10:30") 2 0 0 true (some (txt "2024-06-05")) (some (txt "12:00"))
    (txt "EUR") (txt "en")

/-- A reservation argument assignment with mismatched passenger lists. -/
def resArgsBad : ResArgs :=
  ResArgs.mk (txt "u1") (txt "Jane") (txt "Doe") (txt "j@d.co") (txt "+1")
    (txt "US") 42 none none none none none none none
    (some [txt "Alice Smith", txt "Bob Jones"]) (some [txt "US"])

/-- A valid reservation argument assignment with no passenger lists. -/
def resArgsOk : ResArgs :=
  ResArgs.mk (txt "u1") (txt "Jane") (txt "Doe") (txt "j@d.co") (txt "+1")
    (txt "US") 42 none none none none none none none none none

/-- A valid reservation argument assignment supplying only a name list. -/
def resArgsPartial : ResArgs :=
  ResArgs.mk (txt "u1") (txt "Jane") (txt "Doe") (txt "j@d.co") (txt "+1")
    (txt "US") 42 none none none none none none none
    (some [txt "Alice Smith"]) none

/-- A reservation-listing argument assignment with an unknown query type. -/
def listArgsBad : ListArgs := ListArgs.mk (txt "bogus") none none none

/-- A transfer-search response with a failure status. -/
def tRespFail : TransferResponse :=
  TransferResponse.mk (some (txt "failure")) (some (txt "No cars available"))
    none none none none none none none []

/-- Place details carrying an explicit failure status and description. -/
def detailsFail : PlaceDetails :=
  PlaceDetails.mk (some (txt "failure")) (some (txt "boom")) none none none []

/-- A concrete transfer option of a synthetic success response. -/
def tOptEx : TransferOption :=
  TransferOption.mk (some (txt "Sedan")) none (some (txt "10:30"))
    (some (txt "45")) (some (txt "50")) (some 3) (some 3) [] (some 77) (some 4242)

/-- A concrete way of a synthetic success response. -/
def tWayEx : TransferWayResp :=
  TransferWayResp.mk (some (txt "yon1")) (some (txt "A")) (some (txt "B"))
    (some (txt "2024-06-01")) [tOptEx]

/-- A synthetic transfer-search success response. -/
def tRespEx : TransferResponse :=
  TransferResponse.mk (some (txt "success")) none (some (txt "EUR"))
    (some (txt "A")) (some (txt "B")) (some 2) (some 0) (some 0)
    (some (txt "uuid-123")) [tWayEx]

/-- A synthetic reservation-creation success response. -/
def rRespEx : ReservationResponse :=
  ReservationResponse.mk (some (txt "success")) none (some (txt "rez-9"))

/-- A concrete listed reservation record. -/
def recEx : ResRecord :=
  ResRecord.mk (some 555) (some (txt "Jane")) (some (txt "Doe"))
    (some (txt "j@d.co")) (some (txt "+1")) (some 2) (some 0) (some 0)
    (some (txt "100")) (some (txt "EUR")) (some (txt "confirmed"))
    (some (txt "card")) (some (txt "2024-06-01")) [] []

/-- A synthetic reservation-list success response. -/
def listRespEx : ReservationListResponse :=
  ReservationListResponse.mk (some (txt "success")) none [recEx]

/-- A concrete place-search candidate. -/
def placeEx : PlaceCandidate :=
  PlaceCandidate.mk (some (txt "pl-42")) (some (txt "Airport"))

theorem yearTok_iff {y : Str} :
    yearTok y = true ↔ (y.length = 4 ∧ y.all isDigit = true) := by
  rcases y with _ | ⟨a, _ | ⟨b, _ | ⟨c, _ | ⟨d, _ | ⟨e, t⟩⟩⟩⟩⟩
  · simp [yearTok]
  · simp [yearTok]
  · simp [yearTok]
  · simp [yearTok]
  · simp [yearTok, List.all, and_assoc]
  · constructor
    · intro h; exact absurd h (by simp [yearTok])
    · rintro ⟨h, -⟩; simp at h

theorem monthTok_iff {m : Str} :
    monthTok m = true ↔
      ((m.length = 1 ∨ m.length = 2) ∧ m.all isDigit = true
       ∧ 1 ≤ tokVal m ∧ tokVal m ≤ 12) := by
  rcases m with _ | ⟨c₁, _ | ⟨c₂, _ | t⟩⟩
  · simp [monthTok]
  · simp [monthTok, tokVal, isDigit] <;> omega
  · by_cases h32 : c₁.toNat = 32 <;>
      simp [monthTok, tokVal, isDigit, h32] <;> omega
  · constructor
    · intro h; exact absurd h (by simp [monthTok])
    · rintro ⟨h, -⟩; rcases h with h | h <;> simp at h

theorem dayTok_iff {d : Str} {D : Nat} (hD : D ≤ 31) :
    (dayTok d = true ∧ 1 ≤ tokVal d ∧ tokVal d ≤ D) ↔
      (amendedDayShape d = true ∧ 1 ≤ tokVal d ∧ tokVal d ≤ D) := by
  rcases d with _ | ⟨c₁, _ | ⟨c₂, _ | t⟩⟩
  · simp [dayTok, amendedDayShape]
  · simp [dayTok, amendedDayShape, tokVal, isDigit] <;> omega
  · by_cases h32 : c₁.toNat = 32 <;>
      simp [dayTok, amendedDayShape, tokVal, isDigit, h32] <;> omega
  · constructor
    · rintro ⟨h, -⟩; exact absurd h (by simp [dayTok])
    · rintro ⟨h, -⟩
      simp [amendedDayShape] at h

theorem hourTok_iff {h : Str} :
    hourTok h = true ↔
      ((h.length = 1 ∨ h.length = 2) ∧ h.all isDigit = true ∧ tokVal h ≤ 23) := by
  rcases h with _ | ⟨c₁, _ | ⟨c₂, _ | t⟩⟩
  · simp [hourTok]
  · simp [hourTok, tokVal, isDigit] <;> omega
  · by_cases h32 : c₁.toNat = 32 <;>
      simp [hourTok, tokVal, isDigit, h32] <;> omega
  · constructor
    · intro hh; exact absurd hh (by simp [hourTok])
    · rintro ⟨hh, -⟩; rcases hh with hh | hh <;> simp at hh

theorem minuteTok_iff {m : Str} :
    minuteTok m = true ↔
      ((m.length = 1 ∨ m.length = 2) ∧ m.all isDigit = true ∧ tokVal m ≤ 59) := by
  rcases m with _ | ⟨c₁, _ | ⟨c₂, _ | t⟩⟩
  · simp [minuteTok]
  · simp [minuteTok, tokVal, isDigit] <;> omega
  · by_cases h32 : c₁.toNat = 32 <;>
      simp [minuteTok, tokVal, isDigit, h32] <;> omega
  · constructor
    · intro hh; exact absurd hh (by simp [minuteTok])
    · rintro ⟨hh, -⟩; rcases hh with hh | hh <;> simp at hh

theorem tokVal_year_le {y : Str} (h4 : y.length = 4) (hd : y.all isDigit = true) :
    tokVal y ≤ 9999 := by
  rcases y with _ | ⟨a, _ | ⟨b, _ | ⟨c, _ | ⟨d, _ | ⟨e, t⟩⟩⟩⟩⟩ <;>
    simp_all [tokVal, isDigit] <;> omega

theorem daysInMonth_le (y m : Nat) : daysInMonth y m ≤ 31 := by
  unfold daysInMonth
  split
  · split <;> omega
  · split <;> omega

/-- Claim C5 (amended): `validate_date` returns true for the empty string,
and a non-empty string is accepted iff it is `y-m-d` with a four-digit year
of value at least 1, a one- or two-digit month of value 1-12, and a one- or
two-digit day (or a space followed by a digit) whose value lies between 1
and the length of that month in that year. -/
theorem validate_date_amended (s : Str) :
    validate_date s = true ↔ (s = [] ∨ amendedDateShape s = true) := by
  by_cases hs : s = []
  · subst hs; simp [validate_date]
  · simp only [validate_date, amendedDateShape, if_neg hs]
    rcases hsp : splitOnSep '-' s with _ | ⟨y, _ | ⟨m, _ | ⟨d, _ | rest⟩⟩⟩
    · simp [hs]
    · simp [hs]
    · simp [hs]
    · simp only [Bool.and_eq_true, decide_eq_true_eq, hs, false_or]
      have hyiff := @yearTok_iff y
      have hmiff := @monthTok_iff m
      have hdiff := @dayTok_iff d (daysInMonth (tokVal y) (tokVal m))
        (daysInMonth_le _ _)
      have hy9999 := @tokVal_year_le y
      constructor
      · rintro ⟨⟨⟨⟨⟨⟨⟨⟨hy, hm⟩, hd⟩, h1y⟩, h2y⟩, h1m⟩, h2m⟩, h1d⟩, h2d⟩
        obtain ⟨hylen, hydig⟩ := hyiff.mp hy
        obtain ⟨hmlen, hmdig, -, -⟩ := hmiff.mp hm
        obtain ⟨hdsh, -, -⟩ := hdiff.mp ⟨hd, h1d, h2d⟩
        exact ⟨⟨⟨⟨⟨⟨⟨⟨⟨hylen, hydig⟩, h1y⟩, hmlen⟩, hmdig⟩, h1m⟩, h2m⟩, hdsh⟩, h1d⟩, h2d⟩
      · rintro ⟨⟨⟨⟨⟨⟨⟨⟨⟨hylen, hydig⟩, h1y⟩, hmlen⟩, hmdig⟩, h1m⟩, h2m⟩, hdsh⟩, h1d⟩, h2d⟩
        obtain ⟨hd, -, -⟩ := hdiff.mpr ⟨hdsh, h1d, h2d⟩
        exact ⟨⟨⟨⟨⟨⟨⟨⟨yearTok_iff.mpr ⟨hylen, hydig⟩,
          monthTok_iff.mpr ⟨hmlen, hmdig, h1m, h2m⟩⟩, hd⟩, h1y⟩,
          hy9999 hylen hydig⟩, h1m⟩, h2m⟩, h1d⟩, h2d⟩
    · simp [hs]

/-- Claim C5 counterexample: `validate_date` accepts `2024-2-9`, a
non-empty string that is not of the `YYYY-MM-DD` shape the claim asserts
(its month is not two digits). -/
theorem validate_date_claim_counterexample :
    validate_date (txt "2024-2-9") = true
    ∧ claimedDateShape (txt "2024-2-9") = false
    ∧ txt "2024-2-9" ≠ ([] : Str) := by decide

/-- Claim C7: `validate_date` accepts the empty string and the leap-year
date `2024-02-29`, and rejects `2024-02-30` (no such day) and `2024/01/01`
(wrong separator). -/
theorem validate_date_examples :
    validate_date (txt "") = true
    ∧ validate_date (txt "2024-02-30") = false
    ∧ validate_date (txt "2024-02-29") = true
    ∧ validate_date (txt "2024/01/01") = false := by decide

/-- Claim C6 counterexample: `validate_time` accepts `9:5`, which the claim
asserts it rejects. -/
theorem validate_time_claim_counterexample :
    validate_time (txt "9:5") = true := by decide

/-- Claim C6 (amended): `validate_time` accepts the empty string and
`23:59`, rejects `24:00`, and accepts `9:5`; a non-empty string is accepted
iff it is `h:m` with a one- or two-digit hour of value at most 23 and a
one- or two-digit minute of value at most 59. -/
theorem validate_time_amended :
    validate_time (txt "") = true
    ∧ validate_time (txt "23:59") = true
    ∧ validate_time (txt "24:00") = false
    ∧ validate_time (txt "9:5") = true
    ∧ ∀ s : Str, validate_time s = true ↔ (s = [] ∨ amendedTimeShape s = true) := by
  refine ⟨by decide, by decide, by decide, by decide, ?_⟩
  intro s
  by_cases hs : s = []
  · subst hs; simp [validate_time]
  · simp only [validate_time, amendedTimeShape, if_neg hs]
    rcases hsp : splitOnSep ':' s with _ | ⟨h, _ | ⟨m, _ | rest⟩⟩
    · simp [hs]
    · simp [hs]
    · simp only [Bool.and_eq_true, decide_eq_true_eq, hs, false_or]
      have hhiff := @hourTok_iff h
      have hmiff := @minuteTok_iff m
      constructor
      · rintro ⟨hh, hm⟩
        obtain ⟨hhlen, hhdig, hhval⟩ := hhiff.mp hh
        obtain ⟨hmlen, hmdig, hmval⟩ := hmiff.mp hm
        exact ⟨⟨⟨⟨⟨hhlen, hhdig⟩, hhval⟩, hmlen⟩, hmdig⟩, hmval⟩
      · rintro ⟨⟨⟨⟨⟨hhlen, hhdig⟩, hhval⟩, hmlen⟩, hmdig⟩, hmval⟩
        exact ⟨hhiff.mpr ⟨hhlen, hhdig, hhval⟩, hmiff.mpr ⟨hmlen, hmdig, hmval⟩⟩
    · simp [hs]

theorem searchValidate_of_fails {F : Type} (a : SearchArgs F)
    (h : searchValidationFails a) :
    ∃ e, searchValidate a = some e ∧ isOneLineError e = true := by
  unfold searchValidationFails at h
  unfold searchValidate
  split
  · exact ⟨_, rfl, by decide⟩
  · split
    · exact ⟨_, rfl, by decide⟩
    · split
      · exact ⟨_, rfl, by decide⟩
      · split
        · exact ⟨_, rfl, by decide⟩
        · split
          · exact ⟨_, rfl, by decide⟩
          · split
            · exact ⟨_, rfl, by decide⟩
            · split
              · exact ⟨_, rfl, by decide⟩
              · exact absurd h (by tauto)

theorem reservationValidate_of_fails (a : ResArgs)
    (h : reservationValidationFails a) :
    ∃ e, reservationValidate a = some e ∧ isOneLineError e = true := by
  unfold reservationValidationFails at h
  unfold reservationValidate
  split
  · exact ⟨_, rfl, by decide⟩
  · split
    · exact ⟨_, rfl, by decide⟩
    · split
      · exact ⟨_, rfl, by decide⟩
      · split
        · exact ⟨_, rfl, by decide⟩
        · split
          · exact ⟨_, rfl, by decide⟩
          · split
            · exact ⟨_, rfl, by decide⟩
            · split
              · exact ⟨_, rfl, by decide⟩
              · exact absurd h (by tauto)

theorem listValidate_of_fails (a : ListArgs) (h : listValidationFails a) :
    ∃ e, listValidate a = some e ∧ isOneLineError e = true := by
  unfold listValidationFails at h
  unfold listValidate
  split
  · exact ⟨_, rfl, by decide⟩
  · split
    · rename_i hq
      rcases hq with ⟨hq | hq, -⟩ <;> rw [hq] <;> exact ⟨_, rfl, by decide⟩
    · split
      · exact ⟨_, rfl, by decide⟩
      · split
        · exact ⟨_, rfl, by decide⟩
        · rename_i hn1 hn2 hn3 hn4
          exfalso
          rcases h with h | ⟨hq, h⟩ | h
          · exact h (of_not_not hn1)
          · rcases h with h | h | h | h
            · exact hn2 ⟨hq, Or.inl h⟩
            · exact hn2 ⟨hq, Or.inr h⟩
            · exact hn3 ⟨hq, Or.inl h⟩
            · exact hn3 ⟨hq, Or.inr h⟩
          · exact hn4 h

/-- Claim C1: for every tool-layer operation and every argument assignment
failing one of its validation checks, the operation returns a one-line
error string and issues zero API-client calls (hence zero HTTP calls); the
operations are total functions, so no exception reaches the caller. -/
theorem validation_short_circuits :
    (∀ (F : Type) (a : SearchArgs F) api, searchValidationFails a →
       ∃ e, search_transfers a api = (e, []) ∧ isOneLineError e = true)
    ∧ (∀ (a : ResArgs) api, reservationValidationFails a →
       ∃ e, make_reservation a api = (e, []) ∧ isOneLineError e = true)
    ∧ (∀ (a : ListArgs) api, listValidationFails a →
       ∃ e, list_reservations a api = (e, []) ∧ isOneLineError e = true)
    ∧ (∀ (q lang : Str) api, q = [] →
       ∃ e, search_places q lang api = (e, []) ∧ isOneLineError e = true)
    ∧ (∀ (pid lang : Str) api, pid = [] →
       ∃ e, get_place_details pid lang api = (e, []) ∧ isOneLineError e = true) := by
  refine ⟨?_, ?_, ?_, ?_, ?_⟩
  · intro F a api h
    obtain ⟨e, he, hl⟩ := searchValidate_of_fails a h
    exact ⟨e, by simp [search_transfers, he], hl⟩
  · intro a api h
    obtain ⟨e, he, hl⟩ := reservationValidate_of_fails a h
    exact ⟨e, by simp [make_reservation, he], hl⟩
  · intro a api h
    obtain ⟨e, he, hl⟩ := listValidate_of_fails a h
    exact ⟨e, by simp [list_reservations, he], hl⟩
  · intro q lang api hq
    exact ⟨txt "Error: Search query is required",
      by simp [search_places, hq], by decide⟩
  · intro pid lang api hp
    exact ⟨txt "Error: Place ID is required",
      by simp [get_place_details, hp], by decide⟩

/-- Witness: the validation short-circuit theorem applied to concrete
failing inputs of each of the five operations. -/
theorem validation_short_circuits_witness :
    (∃ e, search_transfers searchArgsBad noApiT = (e, []) ∧ isOneLineError e = true)
    ∧ (∃ e, make_reservation resArgsBad noApiR = (e, []) ∧ isOneLineError e = true)
    ∧ (∃ e, list_reservations listArgsBad noApiL = (e, []) ∧ isOneLineError e = true)
    ∧ (∃ e, search_places [] (txt "en") noApiP = (e, []) ∧ isOneLineError e = true)
    ∧ (∃ e, get_place_details [] (txt "en") noApiD = (e, []) ∧ isOneLineError e = true) :=
  ⟨validation_short_circuits.1 Int searchArgsBad noApiT (Or.inl rfl),
   validation_short_circuits.2.1 resArgsBad noApiR
     (by unfold reservationValidationFails; decide),
   validation_short_circuits.2.2.1 listArgsBad noApiL
     (by unfold listValidationFails; decide),
   validation_short_circuits.2.2.2.1 [] (txt "en") noApiP rfl,
   validation_short_circuits.2.2.2.2 [] (txt "en") noApiD rfl⟩

theorem search_calls_payload {F : Type} (a : SearchArgs F)
    (api : SearchPayload F → Except Str TransferResponse) {p : SearchPayload F}
    (hp : p ∈ (search_transfers a api).2) : p = searchPayloadOf a := by
  unfold search_transfers at hp
  rcases hv : searchValidate a with _ | e <;> rw [hv] at hp
  · rcases hapi : api (searchPayloadOf a) with r | r <;> rw [hapi] at hp <;>
      simpa using hp
  · simp at hp

theorem reservation_calls_payload (a : ResArgs)
    (api : ReservationPayload → Except Str ReservationResponse)
    {p : ReservationPayload} (hp : p ∈ (make_reservation a api).2) :
    p = reservationPayloadOf a := by
  unfold make_reservation at hp
  rcases hv : reservationValidate a with _ | e <;> rw [hv] at hp
  · rcases hapi : api (reservationPayloadOf a) with r | r <;> rw [hapi] at hp <;>
      simpa using hp
  · simp at hp

theorem list_calls_payload (a : ListArgs)
    (api : ListPayload → Except Str ReservationListResponse)
    {p : ListPayload} (hp : p ∈ (list_reservations a api).2) :
    p = listPayloadOf a := by
  unfold list_reservations at hp
  rcases hv : listValidate a with _ | e <;> rw [hv] at hp
  · rcases hapi : api (listPayloadOf a) with r | r <;> rw [hapi] at hp <;>
      simpa using hp
  · simp at hp

/-- Claim C4 counterexample: the string `try` is not one of the five listed
currency codes, yet it is mapped to 1 (TRY) rather than 2 (EUR), because
the code upper-cases the argument before the lookup. -/
theorem currency_claim_counterexample :
    lookupStr (txt "try") CURRENCY_MAP = none ∧ currencyId (txt "try") = 1 := by
  decide

/-- Claim C4 (amended): TRY, EUR, USD, GBP, RUB map to currency ids 1, 2,
3, 4, 6; every string whose upper-cased form is not one of those five codes
maps to 2 (EUR); and the payload `search_transfers` sends to the API client
carries exactly this currency id. -/
theorem currency_mapping_amended :
    currencyId (txt "TRY") = 1 ∧ currencyId (txt "EUR") = 2
    ∧ currencyId (txt "USD") = 3 ∧ currencyId (txt "GBP") = 4
    ∧ currencyId (txt "RUB") = 6
    ∧ (∀ s : Str, lookupStr (pyUpper s) CURRENCY_MAP = none → currencyId s = 2)
    ∧ (∀ (F : Type) (a : SearchArgs F) api p, p ∈ (search_transfers a api).2 →
        p.currencyid = currencyId a.currency) := by
  refine ⟨by decide, by decide, by decide, by decide, by decide, ?_, ?_⟩
  · intro s h
    unfold currencyId
    rw [h]
    rfl
  · intro F a api p hp
    rw [search_calls_payload a api hp]
    rfl

/-- Witness: the amended currency theorem applied to the unknown code `chf`
and to a concrete valid search. -/
theorem currency_mapping_amended_witness :
    currencyId (txt "chf") = 2
    ∧ (searchPayloadOf searchArgsOneWay).currencyid
        = currencyId searchArgsOneWay.currency :=
  ⟨currency_mapping_amended.2.2.2.2.2.1 (txt "chf") (by decide),
   currency_mapping_amended.2.2.2.2.2.2 Int searchArgsOneWay noApiT
     (searchPayloadOf searchArgsOneWay)
     (by simp [search_transfers, noApiT,
           show searchValidate searchArgsOneWay = none from by decide])⟩

/-- Claim C3: when `make_reservation` passes validation and no passenger
lists are supplied, the request sent to the API client contains exactly one
passenger record whose name joins the first and last name with a single
space and whose country is the lower-cased country code. -/
theorem default_passenger_payload :
    ∀ (a : ResArgs) api, a.passenger_names = none → a.passenger_countries = none →
      ∀ p ∈ (make_reservation a api).2,
        p.passangers = [PassengerRec.mk (a.first_name ++ txt " " ++ a.last_name)
          (pyLower a.country_code)] := by
  intro a api hn hc p hp
  rw [reservation_calls_payload a api hp]
  show (reservationPayloadOf a).passangers = _
  unfold reservationPayloadOf passengersOf
  rw [hn]
  simp [pyTruthyOptList, defaultPassenger]

/-- Witness: the default-passenger theorem at a concrete reservation. -/
theorem default_passenger_payload_witness :
    (reservationPayloadOf resArgsOk).passangers
      = [PassengerRec.mk (txt "Jane Doe") (txt "us")] := by
  have hmem : reservationPayloadOf resArgsOk ∈ (make_reservation resArgsOk noApiR).2 := by
    simp [make_reservation, noApiR,
      show reservationValidate resArgsOk = none from by decide]
  have h := default_passenger_payload resArgsOk noApiR rfl rfl _ hmem
  rw [h]
  decide

theorem not_truthy_of_partial (a : ResArgs) (h : partialPassengerLists a) :
    ¬ (pyTruthyOptList a.passenger_names = true
       ∧ pyTruthyOptList a.passenger_countries = true) := by
  rintro ⟨h1, h2⟩
  rcases h with ⟨-, hc⟩ | ⟨hn, -⟩ | hn | hc
  · rw [hc] at h2; simp [pyTruthyOptList] at h2
  · rw [hn] at h1; simp [pyTruthyOptList] at h1
  · rw [hn] at h1; simp [pyTruthyOptList] at h1
  · rw [hc] at h2; simp [pyTruthyOptList] at h2

/-- Claim C9: when exactly one passenger list is supplied, or either list
is empty, the length-mismatch check does not fire — validation is exactly
the validation with both lists dropped — and the supplied list is ignored:
the request payload carries the single default passenger. -/
theorem partial_passenger_lists_ignored :
    ∀ (a : ResArgs) api, partialPassengerLists a →
      reservationValidate a = reservationValidate a.clearPassengers
      ∧ passengersOf a = [defaultPassenger a]
      ∧ ∀ p ∈ (make_reservation a api).2, p.passangers = [defaultPassenger a] := by
  intro a api h
  have hTT := not_truthy_of_partial a h
  have hpass : passengersOf a = [defaultPassenger a] := by
    unfold passengersOf
    rw [if_neg (fun hx => hTT ⟨hx.1, hx.2⟩)]
  refine ⟨?_, hpass, ?_⟩
  · have h7 : ¬ (pyTruthyOptList a.passenger_names = true
        ∧ pyTruthyOptList a.passenger_countries = true
        ∧ (a.passenger_names.getD []).length
            ≠ (a.passenger_countries.getD []).length) :=
      fun hx => hTT ⟨hx.1, hx.2.1⟩
    unfold reservationValidate ResArgs.clearPassengers
    rw [if_neg h7]
    simp [pyTruthyOptList]
  · intro p hp
    rw [reservation_calls_payload a api hp]
    simpa [reservationPayloadOf] using hpass

/-- Witness: the partial-passenger-list theorem at a reservation supplying
only a passenger-name list. -/
theorem partial_passenger_lists_ignored_witness :
    reservationValidate resArgsPartial
      = reservationValidate resArgsPartial.clearPassengers
    ∧ passengersOf resArgsPartial = [defaultPassenger resArgsPartial] :=
  ⟨(partial_passenger_lists_ignored resArgsPartial noApiR
      (Or.inl ⟨by decide, rfl⟩)).1,
   (partial_passenger_lists_ignored resArgsPartial noApiR
      (Or.inl ⟨by decide, rfl⟩)).2.1⟩

/-- Claim C10: with `round_trip = false` the supplied return date/time are
neither validated nor forwarded — the whole operation is unchanged by
replacing them, and the payload carries empty return fields and request
type 1; with `round_trip = true` the payload carries the supplied return
fields and request type 2. -/
theorem round_trip_payload :
    (∀ (F : Type) (a : SearchArgs F) api rd rt, a.round_trip = false →
       search_transfers (a.setReturn rd rt) api = search_transfers a api)
    ∧ (∀ (F : Type) (a : SearchArgs F) api, a.round_trip = false →
       ∀ p ∈ (search_transfers a api).2,
         p.dropoffdate = [] ∧ p.dropofftime = [] ∧ p.requesttype = 1)
    ∧ (∀ (F : Type) (a : SearchArgs F) api, a.round_trip = true →
       ∀ p ∈ (search_transfers a api).2,
         p.dropoffdate = a.return_date.getD []
         ∧ p.dropofftime = a.return_time.getD []
         ∧ p.requesttype = 2) := by
  refine ⟨?_, ?_, ?_⟩
  · intro F a api rd rt h
    have hv : searchValidate (a.setReturn rd rt) = searchValidate a := by
      unfold searchValidate SearchArgs.setReturn
      simp [h]
    have hp : searchPayloadOf (a.setReturn rd rt) = searchPayloadOf a := by
      unfold searchPayloadOf SearchArgs.setReturn
      simp [h]
    unfold search_transfers
    rw [hv, hp]
  · intro F a api h p hp
    rw [search_calls_payload a api hp]
    unfold searchPayloadOf
    simp [h]
  · intro F a api h p hp
    rw [search_calls_payload a api hp]
    unfold searchPayloadOf
    simp [h]

/-- Witness: the round-trip theorem at a concrete one-way search carrying
junk return fields and at a concrete round-trip search. -/
theorem round_trip_payload_witness :
    search_transfers (searchArgsOneWay.setReturn (some (txt "x")) none) noApiT
      = search_transfers searchArgsOneWay noApiT
    ∧ (searchPayloadOf searchArgsOneWay).dropoffdate = []
    ∧ (searchPayloadOf searchArgsOneWay).requesttype = 1
    ∧ (searchPayloadOf searchArgsRound).dropoffdate = txt "2024-06-05"
    ∧ (searchPayloadOf searchArgsRound).requesttype = 2 := by
  have hmem1 : searchPayloadOf searchArgsOneWay
      ∈ (search_transfers searchArgsOneWay noApiT).2 := by
    simp [search_transfers, noApiT,
      show searchValidate searchArgsOneWay = none from by decide]
  have hmem2 : searchPayloadOf searchArgsRound
      ∈ (search_transfers searchArgsRound noApiT).2 := by
    simp [search_transfers, noApiT,
      show searchValidate searchArgsRound = none from by decide]
  have h1 := round_trip_payload.2.1 Int searchArgsOneWay noApiT rfl _ hmem1
  have h2 := round_trip_payload.2.2 Int searchArgsRound noApiT rfl _ hmem2
  exact ⟨round_trip_payload.1 Int searchArgsOneWay noApiT (some (txt "x")) none rfl,
    h1.1, h1.2.2, h2.1.trans (by decide), h2.2.2⟩

theorem joinSep_cons_eq (sep a : Str) (parts : List Str) :
    ∃ t, joinSep sep (a :: parts) = a ++ t := by
  cases parts with
  | nil => exact ⟨[], by simp [joinSep]⟩
  | cons b r =>
      exact ⟨sep ++ joinSep sep (b :: r), by simp [joinSep, List.append_assoc]⟩

theorem joinSep_infix_of_mem (sep : Str) {p : Str} :
    ∀ parts : List Str, p ∈ parts → p <:+: joinSep sep parts := by
  intro parts
  induction parts with
  | nil => intro h; cases h
  | cons a rest ih =>
    intro hp
    rcases List.mem_cons.mp hp with rfl | hp
    · obtain ⟨t, ht⟩ := joinSep_cons_eq sep p rest
      rw [ht]
      exact (List.prefix_append p t).isInfix
    · rcases rest with _ | ⟨b, r⟩
      · cases hp
      · have hj : joinSep sep (a :: b :: r) = (a ++ sep) ++ joinSep sep (b :: r) := by
          simp [joinSep, List.append_assoc]
        rw [hj]
        exact (ih hp).trans (List.suffix_append _ _).isInfix

theorem infix_middle (pre mid post : Str) : mid <:+: pre ++ mid ++ post :=
  ⟨pre, post, rfl⟩

/-- Claim C2 (amended): the three dictionary-response formatters first
check `status` and, when it is not the success marker, return exactly
`Error: <description>` with the fallback `Error: Unknown error occurred`
when no description is present; the place-search formatter receives a bare
list that carries no status, and its output never begins with `Error:`;
the place-details formatter performs no status check either — its output
always begins with `Location Details:`. -/
theorem formatter_error_lines :
    (∀ r : TransferResponse, r.status ≠ some (txt "success") →
       format_transfer_results r
         = txt "Error: " ++ r.description.getD (txt "Unknown error occurred"))
    ∧ (∀ r : ReservationResponse, r.status ≠ some (txt "success") →
       format_reservation_results r
         = txt "Error: " ++ r.description.getD (txt "Unknown error occurred"))
    ∧ (∀ r : ReservationListResponse, r.status ≠ some (txt "success") →
       format_reservation_list r
         = txt "Error: " ++ r.description.getD (txt "Unknown error occurred"))
    ∧ (∀ places : List PlaceCandidate,
        (format_places_results places).take 6 ≠ txt "Error:")
    ∧ (∀ d : PlaceDetails,
        (format_place_details d).take 17 = txt "Location Details:") := by
  refine ⟨?_, ?_, ?_, ?_, ?_⟩
  · intro r h
    unfold format_transfer_results
    rw [if_pos h]
  · intro r h
    unfold format_reservation_results
    rw [if_pos h]
  · intro r h
    unfold format_reservation_list
    rw [if_pos h]
  · intro places
    cases places with
    | nil => decide
    | cons p ps =>
      unfold format_places_results
      rw [if_neg (by simp)]
      obtain ⟨t, ht⟩ := joinSep_cons_eq nl (txt "Found locations:") (placeLines 1 (p :: ps))
      rw [ht, List.take_append_of_le_length (by decide)]
      decide
  · intro d
    unfold format_place_details
    obtain ⟨t, ht⟩ := joinSep_cons_eq nl (txt "Location Details:") _
    rw [ht, List.take_append_of_le_length (by decide)]
    decide

/-- Claim C2 counterexample: place details carrying a failure status and a
description are rendered as location details, not as the error line the
claim requires. -/
theorem formatter_error_lines_counterexample :
    detailsFail.status = some (txt "failure")
    ∧ detailsFail.status ≠ some (txt "success")
    ∧ detailsFail.description = some (txt "boom")
    ∧ format_place_details detailsFail
        = txt "Location Details:\nName: N/A\nAddress: N/A"
    ∧ format_place_details detailsFail ≠ txt "Error: boom" := by decide

/-- Witness: the formatter error-line theorem at the failed transfer
search response given as an example in the specification. -/
theorem formatter_error_lines_witness :
    tRespFail.status ≠ some (txt "success")
    ∧ format_transfer_results tRespFail = txt "Error: No cars available" := by
  refine ⟨by decide, ?_⟩
  rw [formatter_error_lines.1 tRespFail (by decide)]
  decide

theorem optionBlocks_mem_lines {csym : Str} {opts : List TransferOption}
    {o : TransferOption} (ho : o ∈ opts) :
    ∀ i, (txt "Route ID: " ++ pyShowOptInt o.routeid) ∈ optionBlocks csym i opts
      ∧ (txt "Subroute ID: " ++ pyShowOptInt o.subrouteid
          ++ txt " (needed for booking)") ∈ optionBlocks csym i opts := by
  induction opts with
  | nil => cases ho
  | cons x rest ih =>
    intro i
    simp only [optionBlocks]
    rcases List.mem_cons.mp ho with rfl | ho
    · constructor
      · exact List.mem_append_left _ (by simp [optionBlock])
      · exact List.mem_append_left _ (by simp [optionBlock])
    · exact ⟨List.mem_append_right _ (ih ho (i + 1)).1,
        List.mem_append_right _ (ih ho (i + 1)).2⟩

theorem wayBlock_mem {csym : Str} {w : TransferWayResp} {line : Str}
    (h : line ∈ optionBlocks csym 1 w.list) : line ∈ wayBlock csym w := by
  unfold wayBlock
  exact List.mem_cons_of_mem _ (List.mem_cons_of_mem _ (List.mem_cons_of_mem _
    (List.mem_cons_of_mem _ (List.mem_cons_of_mem _ h))))

theorem waysBlocks_mem {csym : Str} {ways : List TransferWayResp}
    {w : TransferWayResp} (hw : w ∈ ways) {line : Str}
    (h : line ∈ wayBlock csym w) : line ∈ waysBlocks csym ways := by
  induction ways with
  | nil => cases hw
  | cons x rest ih =>
    simp only [waysBlocks]
    rcases List.mem_cons.mp hw with rfl | hw
    · exact List.mem_append_left _ h
    · exact List.mem_append_right _ (ih hw)

theorem resRecordBlocks_mem {recs : List ResRecord} {r : ResRecord}
    (hr : r ∈ recs) :
    ∀ i, (txt "Reservation Number: " ++ pyShowOptInt r.reservationnumber)
      ∈ resRecordBlocks i recs := by
  induction recs with
  | nil => cases hr
  | cons x rest ih =>
    intro i
    simp only [resRecordBlocks]
    rcases List.mem_cons.mp hr with rfl | hr
    · exact List.mem_append_left _ (by simp [resRecordBlock])
    · exact List.mem_append_right _ (ih hr (i + 1))

theorem placeLines_mem {places : List PlaceCandidate} {p : PlaceCandidate}
    (hp : p ∈ places) :
    ∀ i, ∃ j, (natRepr j ++ txt ". " ++ pyShowOptStr p.description
      ++ txt " (ID: " ++ pyShowOptStr p.place_id ++ txt ")") ∈ placeLines i places := by
  induction places with
  | nil => cases hp
  | cons x rest ih =>
    intro i
    rcases List.mem_cons.mp hp with rfl | hp
    · exact ⟨i, by simp [placeLines]⟩
    · obtain ⟨j, hj⟩ := ih hp (i + 1)
      exact ⟨j, by
        simp only [placeLines]
        exact List.mem_cons_of_mem _ hj⟩

/-- Claim C8: for well-formed success responses, every identifier needed
for follow-up calls appears verbatim in the formatter output: the uuid and
every option's route and subroute ids for transfer search, the rezid for
reservation confirmation, every record's reservation number for the
reservation list, and every candidate's place id for place search. -/
theorem formatter_identifiers :
    (∀ r : TransferResponse, r.status = some (txt "success") →
       (∀ u, r.uuid = some u → u <:+: format_transfer_results r)
       ∧ (∀ w ∈ r.ways, ∀ o ∈ w.list,
           (∀ rid : Int, o.routeid = some rid →
              intRepr rid <:+: format_transfer_results r)
           ∧ (∀ sid : Int, o.subrouteid = some sid →
              intRepr sid <:+: format_transfer_results r)))
    ∧ (∀ (r : ReservationResponse) (z : Str),
        r.status = some (txt "success") → r.rezid = some z →
          z <:+: format_reservation_results r)
    ∧ (∀ (r : ReservationListResponse) (rec : ResRecord) (n : Int),
        r.status = some (txt "success") → rec ∈ r.list →
        rec.reservationnumber = some n →
          intRepr n <:+: format_reservation_list r)
    ∧ (∀ (places : List PlaceCandidate) (p : PlaceCandidate) (pid : Str),
        p ∈ places → p.place_id = some pid →
          pid <:+: format_places_results places) := by
  refine ⟨?_, ?_, ?_, ?_⟩
  · intro r hst
    unfold format_transfer_results
    rw [if_neg (by simp [hst])]
    constructor
    · intro u hu
      have hmid : u <:+: txt "Booking reference (UUID): " ++ pyShowOptStr r.uuid := by
        rw [hu]
        exact (List.suffix_append _ _).isInfix
      exact hmid.trans (joinSep_infix_of_mem nl _ (by simp))
    · intro w hw o ho
      have hmr := (@optionBlocks_mem_lines (r.currencysembol.getD []) w.list o ho 1).1
      have hms := (@optionBlocks_mem_lines (r.currencysembol.getD []) w.list o ho 1).2
      constructor
      · intro rid hr
        have hmid : intRepr rid <:+: txt "Route ID: " ++ pyShowOptInt o.routeid := by
          rw [hr]
          exact (List.suffix_append _ _).isInfix
        exact hmid.trans (joinSep_infix_of_mem nl _
          (List.mem_cons_of_mem _ (List.mem_cons_of_mem _ (List.mem_cons_of_mem _
            (List.mem_cons_of_mem _ (List.mem_cons_of_mem _
              (waysBlocks_mem hw (wayBlock_mem hmr))))))))
      · intro sid hs
        have hmid : intRepr sid <:+: txt "Subroute ID: " ++ pyShowOptInt o.subrouteid
            ++ txt " (needed for booking)" := by
          rw [hs]
          exact infix_middle _ _ _
        exact hmid.trans (joinSep_infix_of_mem nl _
          (List.mem_cons_of_mem _ (List.mem_cons_of_mem _ (List.mem_cons_of_mem _
            (List.mem_cons_of_mem _ (List.mem_cons_of_mem _
              (waysBlocks_mem hw (wayBlock_mem hms))))))))
  · intro r z hst hz
    unfold format_reservation_results
    rw [if_neg (by simp [hst])]
    have hmid : z <:+: txt "Reservation Number: " ++ pyShowOptStr r.rezid := by
      rw [hz]
      exact (List.suffix_append _ _).isInfix
    exact hmid.trans (joinSep_infix_of_mem nl _ (by simp))
  · intro r rec n hst hrec hn
    unfold format_reservation_list
    rw [if_neg (by simp [hst]),
      if_neg (by simp [List.isEmpty_iff, List.ne_nil_of_mem hrec])]
    have hmid : intRepr n <:+:
        txt "Reservation Number: " ++ pyShowOptInt rec.reservationnumber := by
      rw [hn]
      exact (List.suffix_append _ _).isInfix
    exact hmid.trans (joinSep_infix_of_mem nl _
      (List.mem_cons_of_mem _ (resRecordBlocks_mem hrec 1)))
  · intro places p pid hp hpid
    unfold format_places_results
    rw [if_neg (by simp [List.isEmpty_iff, List.ne_nil_of_mem hp])]
    obtain ⟨j, hj⟩ := placeLines_mem hp 1
    have hmid : pid <:+: natRepr j ++ txt ". " ++ pyShowOptStr p.description
        ++ txt " (ID: " ++ pyShowOptStr p.place_id ++ txt ")" := by
      rw [hpid]
      exact infix_middle _ _ _
    exact hmid.trans (joinSep_infix_of_mem nl _ (List.mem_cons_of_mem _ hj))

/-- Witness: the identifier round-trip theorem at synthetic success
responses of each kind. -/
theorem formatter_identifiers_witness :
    txt "uuid-123" <:+: format_transfer_results tRespEx
    ∧ intRepr 77 <:+: format_transfer_results tRespEx
    ∧ intRepr 4242 <:+: format_transfer_results tRespEx
    ∧ txt "rez-9" <:+: format_reservation_results rRespEx
    ∧ intRepr 555 <:+: format_reservation_list listRespEx
    ∧ txt "pl-42" <:+: format_places_results [placeEx] := by
  have ht := formatter_identifiers.1 tRespEx rfl
  have hopt := ht.2 tWayEx (by simp [tRespEx]) tOptEx (by simp [tWayEx])
  exact ⟨ht.1 (txt "uuid-123") rfl, hopt.1 77 rfl, hopt.2 4242 rfl,
    formatter_identifiers.2.1 rRespEx (txt "rez-9") rfl rfl,
    formatter_identifiers.2.2.1 listRespEx recEx 555 rfl (by simp [listRespEx]) rfl,
    formatter_identifiers.2.2.2 [placeEx] placeEx (txt "pl-42") (by simp) rfl⟩
